import Mathlib

/-!
Shallow embedding of the flare-event extraction and energy-statistics
pipeline of `enhanced_python_api.py` (class `ProductionFlareAnalyzer`),
verified against the natural-language specification of the repository.
Numeric values are modelled as exact rationals.  The two transcendental
functions the source applies (`np.log10`, `np.exp`) and every call to the
process-global random source are passed in as explicit parameters, so all
definitions stay computable and each theorem quantifies over them where
they cannot influence the stated property.
-/

/-- Two-digit zero padding, as produced by Python `%02d` / `isoformat`. -/
def pad2 (n : ℕ) : String :=
  if n < 10 then "0" ++ toString n else toString n

/-- Python `int()` applied to a rational: truncation toward zero. -/
def int_trunc (q : ℚ) : ℤ :=
  q.num / (q.den : ℤ)

/-- Python `range(0, stop, step)` where `stop` may be non-positive
(empty range) and `step == 0` raises `ValueError`.  The source only ever
builds ranges from `0` with a non-negative step. -/
def python_range_zero (stop : ℤ) (step : ℕ) : Except String (List ℕ) :=
  if step = 0 then
    .error "range() arg 3 must not be zero"
  else if stop ≤ 0 then
    .ok []
  else
    .ok ((List.range ((stop.toNat + step - 1) / step)).map (fun k => k * step))

/-- Insertion of an element into a list sorted by `le` (used to model the
stable Python `sorted`). -/
def insert_le {α : Type} (le : α → α → Bool) (x : α) : List α → List α
  | [] => [x]
  | y :: ys => if le x y then x :: y :: ys else y :: insert_le le x ys

/-- Stable insertion sort, modelling Python `sorted(l, key=...)`. -/
def sort_le {α : Type} (le : α → α → Bool) : List α → List α
  | [] => []
  | x :: xs => insert_le le x (sort_le le xs)

/-- Minimum of a list of rationals (`min(all_energies)`); `0` on `[]`,
a case the source never reaches. -/
def qmin : List ℚ → ℚ
  | [] => 0
  | a :: t => t.foldl min a

/-- Maximum of a list of rationals (`max(all_energies)`). -/
def qmax : List ℚ → ℚ
  | [] => 0
  | a :: t => t.foldl max a

/-- `np.median`: mean of the two middle elements of the sorted list when
the length is even, the middle element when odd. -/
def np_median (l : List ℚ) : ℚ :=
  let s := sort_le (fun a b => decide (a ≤ b)) l
  let n := s.length
  if n = 0 then 0
  else if n % 2 = 1 then s.getD (n / 2) 0
  else (s.getD (n / 2 - 1) 0 + s.getD (n / 2) 0) / 2

/-- One decoded flare record, as the dict built by
`_convert_predictions_to_flares`.  The `is_nanoflare` and
`nanoflare_confidence` keys are absent (`none`) until `_detect_nanoflares`
mutates the record. -/
structure FlareEvent where
  timestamp : String
  intensity : ℚ
  energy : ℚ
  alpha : ℚ
  peak_time : ℚ
  rise_time : ℚ
  decay_time : ℚ
  background : ℚ
  confidence : ℚ
  flare_type : String
  is_nanoflare : Option Bool
  nanoflare_confidence : Option ℚ
deriving DecidableEq, Repr

/-- One group of 5 scalars of a per-window parameter block. -/
structure ParamGroup where
  amplitude : ℚ
  peak_time : ℚ
  rise_time : ℚ
  decay_time : ℚ
  background : ℚ
deriving DecidableEq, Repr

/-- The (already normalised) model output consumed by
`_convert_predictions_to_flares`: per-window parameter blocks plus the
aligned energy estimates and classification scores. -/
structure RawPrediction where
  flare_params : List (List ℚ)
  energy_estimates : List ℚ
  classification : List ℚ
deriving DecidableEq, Repr

/-- `params.reshape(-1, 5)` after the surrounding `len(params) >= 5`
guard: successive groups of 5 scalars (total only when the length is a
multiple of 5; the caller checks this). -/
def chunk5 : List ℚ → List ParamGroup
  | a :: b :: c :: d :: e :: rest => ⟨a, b, c, d, e⟩ :: chunk5 rest
  | _ => []

/-- `_generate_timestamp(sequence_idx, flare_idx)`:
`offset_hours = i*6 + j*0.5`, hour `int(offset_hours) % 24`, minute
`int((offset_hours % 1) * 60)`, emitted on the fixed epoch day. -/
def generate_timestamp (i j : ℕ) : String :=
  let hour := (6 * i + j / 2) % 24
  let minute := if j % 2 = 1 then 30 else 0
  "2024-01-01T" ++ pad2 hour ++ ":" ++ pad2 minute ++ ":00Z"

/-- `_classify_flare_type(intensity)`: the threshold chain of the source,
first match wins. -/
def classify_flare_type (intensity : ℚ) : String :=
  if intensity > 1000 then "X-class"
  else if intensity > 500 then "major"
  else if intensity > 100 then "minor"
  else if intensity > 50 then "micro"
  else "nano"

/-- The flare dict built for the group `j` of window `i`.  `alphaDraw`
and `energyDraw` name the per-event draws from `np.random.normal(0, 2)`
and `np.random.exponential(1e28)`.  Note that the source passes the
signed `flare_param[0]` to `_classify_flare_type`, not the absolute
value stored under `intensity`. -/
def make_flare (pred : RawPrediction) (alphaDraw energyDraw : ℕ → ℕ → ℚ)
    (i j : ℕ) (g : ParamGroup) : FlareEvent :=
  { timestamp := generate_timestamp i j
  , intensity := |g.amplitude|
  , energy :=
      if i < pred.energy_estimates.length then pred.energy_estimates.getD i 0
      else energyDraw i j
  , alpha := alphaDraw i j
  , peak_time := g.peak_time
  , rise_time := g.rise_time
  , decay_time := g.decay_time
  , background := g.background
  , confidence :=
      if i < pred.classification.length then pred.classification.getD i 0
      else 1/2
  , flare_type := classify_flare_type g.amplitude
  , is_nanoflare := none
  , nanoflare_confidence := none }

/-- The body of the `for i, params in enumerate(flare_params)` loop for
one window: blocks with fewer than 5 scalars are skipped, blocks whose
length is not a multiple of 5 make `reshape(-1, 5)` raise, and each
complete group passing the `abs(amplitude) > 0.1` filter yields one
flare. -/
def convert_window_params (pred : RawPrediction)
    (alphaDraw energyDraw : ℕ → ℕ → ℚ) (i : ℕ) (params : List ℚ) :
    Except String (List FlareEvent) :=
  if 5 ≤ params.length then
    if params.length % 5 = 0 then
      .ok ((chunk5 params).enum.filterMap (fun p =>
        if 1/10 < |p.2.amplitude| then
          some (make_flare pred alphaDraw energyDraw i p.1 p.2)
        else none))
    else
      .error "cannot reshape array into shape (5)"
  else
    .ok []

/-- The window loop of `_convert_predictions_to_flares`, accumulating
flares in order; an exception in any window aborts the whole decode. -/
def convert_go (pred : RawPrediction) (alphaDraw energyDraw : ℕ → ℕ → ℚ) :
    ℕ → List (List ℚ) → Except String (List FlareEvent)
  | _, [] => .ok []
  | i, params :: rest =>
      match convert_window_params pred alphaDraw energyDraw i params with
      | .error m => .error m
      | .ok evs =>
          match convert_go pred alphaDraw energyDraw (i + 1) rest with
          | .error m => .error m
          | .ok more => .ok (evs ++ more)

/-- `_convert_predictions_to_flares(predictions, original_data)` for the
structured-output case. -/
def convert_predictions_to_flares (pred : RawPrediction)
    (alphaDraw energyDraw : ℕ → ℕ → ℚ) : Except String (List FlareEvent) :=
  convert_go pred alphaDraw energyDraw 0 pred.flare_params

/-- The nanoflare criterion of `_detect_nanoflares`:
`abs(alpha) > 2.0 or intensity < 100 or flare_type == 'nano'`. -/
def nanoflare_criterion (f : FlareEvent) : Bool :=
  decide (2 < |f.alpha|) || decide (f.intensity < 100) || (f.flare_type == "nano")

/-- The in-place mutation performed on a flare that meets the criterion:
`flare['is_nanoflare'] = True`,
`flare['nanoflare_confidence'] = min(abs(alpha)/2.0, 1.0)`. -/
def mark_nanoflare (f : FlareEvent) : FlareEvent :=
  { f with is_nanoflare := some true
         , nanoflare_confidence := some (min (|f.alpha| / 2) 1) }

/-- The state of `ml_results` after `_detect_nanoflares` ran: the same
list, with every flare meeting the criterion mutated in place. -/
def detect_nanoflares_all (ml_results : List FlareEvent) : List FlareEvent :=
  ml_results.map (fun f => if nanoflare_criterion f then mark_nanoflare f else f)

/-- The list returned by `_detect_nanoflares`: exactly the (mutated)
flares meeting the criterion, in order. -/
def detect_nanoflares (ml_results : List FlareEvent) : List FlareEvent :=
  (detect_nanoflares_all ml_results).filter nanoflare_criterion

/-- The feature-count adjustment at the top of `_run_ml_analysis`: keep
the first `n_features` columns, zero-pad missing ones. -/
def adjust_features (data : List (List ℚ)) (n_features : ℕ) : List (List ℚ) :=
  data.map (fun row => row.take n_features ++ List.replicate (n_features - row.length) 0)

/-- The window offsets generated by
`range(0, len(data) - sequence_length + 1, sequence_length // 2)`.
The stride is `sequence_length // 2` with no lower guard, so
`sequence_length == 1` hands `range` a zero step. -/
def segment_offsets (L sequence_length : ℕ) : Except String (List ℕ) :=
  python_range_zero ((L : ℤ) - sequence_length + 1) (sequence_length / 2)

/-- The sequence-segmentation step of `_run_ml_analysis`: slices
`data[i : i + sequence_length]` at the stride offsets, and when no window
was produced, a single zero-padded window holding the whole series. -/
def segment_sequences (data : List (List ℚ)) (sequence_length n_features : ℕ) :
    Except String (List (List (List ℚ))) :=
  let d := adjust_features data n_features
  (segment_offsets d.length sequence_length).map (fun offs =>
    let seqs := offs.map (fun i => (d.drop i).take sequence_length)
    if seqs.isEmpty then
      [d ++ List.replicate (sequence_length - d.length) (List.replicate n_features 0)]
    else
      seqs)

/-- The full energy-analysis record returned on the success path of
`_analyze_energies`. -/
structure EnergyAnalysis where
  total_energy : ℚ
  average_energy : ℚ
  median_energy : ℚ
  energy_range : ℚ × ℚ
  power_law_index : ℚ
  nanoflare_energy_fraction : ℚ
  distribution_bins : List ℚ
  distribution_counts : List ℕ
deriving DecidableEq, Repr, Inhabited

/-- The three observable outcomes of `_analyze_energies`: the inline
`{'error': 'No energy data available'}` object, a propagated exception,
or the full record. -/
inductive EnergyResult where
  | errObj : EnergyResult
  | raised : String → EnergyResult
  | ok : EnergyAnalysis → EnergyResult
deriving DecidableEq, Repr

/-- The histogram range used by `np.histogram(..., bins=20)`: the sample
min/max, widened by 0.5 on each side when they coincide. -/
def hist_range (vals : List ℚ) : ℚ × ℚ :=
  let lo := qmin vals
  let hi := qmax vals
  if lo = hi then (lo - 1/2, hi + 1/2) else (lo, hi)

/-- Edge `k` of the 20 equal-width histogram bins over `[lo, hi]`. -/
def hist_edge (lo hi : ℚ) (k : ℕ) : ℚ :=
  lo + k * (hi - lo) / 20

/-- Membership of a value in bin `k` under `np.histogram` semantics:
bins are left-closed and the last bin also contains the right edge. -/
def in_bin (lo hi : ℚ) (k : ℕ) (v : ℚ) : Bool :=
  decide (hist_edge lo hi k ≤ v) &&
    (if k = 19 then decide (v ≤ hist_edge lo hi 20)
     else decide (v < hist_edge lo hi (k + 1)))

/-- The count of histogram bin `k` over the sample `vals`. -/
def hist_count (lo hi : ℚ) (vals : List ℚ) (k : ℕ) : ℕ :=
  (vals.filter (in_bin lo hi k)).length

/-- The slope coefficient of `np.polyfit(x, y, 1)`: the ordinary
least-squares solution of the degree-one normal equations. -/
def np_polyfit_slope (xs ys : List ℚ) : ℚ :=
  let n : ℚ := xs.length
  let sx := xs.sum
  let sy := ys.sum
  let sxy := ((xs.zip ys).map (fun p => p.1 * p.2)).sum
  let sxx := (xs.map (fun x => x * x)).sum
  (n * sxy - sx * sy) / (n * sxx - sx * sx)

/-- The indices of the non-empty histogram bins (`valid_idx`). -/
def valid_bins (lo hi : ℚ) (vals : List ℚ) : List ℕ :=
  (List.range 20).filter (fun k => decide (0 < hist_count lo hi vals k))

/-- The `power_law_index` computed by `_analyze_energies` from the
log-energy sample: with more than 2 populated bins, the `np.polyfit`
slope of `log10(count)` against the bin centers (`(bins[:-1] +
bins[1:])[valid_idx] / 2`); otherwise the default `-2.0`. -/
def power_law_fit (lg : ℚ → ℚ) (log_energies : List ℚ) : ℚ :=
  let lo := (hist_range log_energies).1
  let hi := (hist_range log_energies).2
  let valid := valid_bins lo hi log_energies
  if 2 < valid.length then
    let log_counts := valid.map (fun k => lg (hist_count lo hi log_energies k : ℚ))
    let log_bins := valid.map (fun k => (hist_edge lo hi k + hist_edge lo hi (k + 1)) / 2)
    np_polyfit_slope log_bins log_counts
  else
    -2

/-- `_analyze_energies(flares, nanoflares)`.  `lg` stands for `np.log10`
on positive arguments; `np.log10` of a non-positive energy yields
`nan`/`-inf`, on which `np.histogram` raises (`range ... is not
finite`), so that case is modelled as a raised exception before `lg` is
consulted. -/
def analyze_energies (lg : ℚ → ℚ) (flares nanoflares : List FlareEvent) :
    EnergyResult :=
  let all_energies := flares.map (fun f => f.energy)
  let nano_energies := nanoflares.map (fun f => f.energy)
  if all_energies.isEmpty then
    .errObj
  else if all_energies.any (fun e => decide (e ≤ 0)) then
    .raised "histogram range is not finite"
  else
    let log_energies := all_energies.map lg
    let lo := (hist_range log_energies).1
    let hi := (hist_range log_energies).2
    .ok
      { total_energy := all_energies.sum
      , average_energy := all_energies.sum / all_energies.length
      , median_energy := np_median all_energies
      , energy_range := (qmin all_energies, qmax all_energies)
      , power_law_index := power_law_fit lg log_energies
      , nanoflare_energy_fraction :=
          if nano_energies.isEmpty then 0
          else nano_energies.sum / all_energies.sum
      , distribution_bins := (List.range 21).map (hist_edge lo hi)
      , distribution_counts := (List.range 20).map (hist_count lo hi log_energies) }

/-- A JSON-shaped value, used to state which keys the dicts built by
`_generate_mock_analysis` actually carry. -/
inductive JVal where
  | jnum : ℚ → JVal
  | jstr : String → JVal
  | jbool : Bool → JVal
  | jarr : List JVal → JVal
  | jobj : List (String × JVal) → JVal

/-- The keys of a JSON object (empty for non-objects). -/
def jkeys : JVal → List String
  | .jobj l => l.map (fun p => p.1)
  | _ => []

/-- Lookup of a key in a JSON object. -/
def jget (v : JVal) (k : String) : Option JVal :=
  match v with
  | .jobj l => (l.find? (fun p => p.1 == k)).map (fun p => p.2)
  | _ => none

/-- The keys of the object stored under `k` (empty when absent or not an
object). -/
def jkeys_at (v : JVal) (k : String) : List String :=
  match jget v k with
  | some w => jkeys w
  | none => []

/-- A flare dict serialised as JSON: the ten keys always written by the
producers, plus `is_nanoflare` / `nanoflare_confidence` when the record
carries them. -/
def flare_json (f : FlareEvent) : JVal :=
  .jobj
    ([ ("timestamp", .jstr f.timestamp)
     , ("intensity", .jnum f.intensity)
     , ("energy", .jnum f.energy)
     , ("alpha", .jnum f.alpha)
     , ("peak_time", .jnum f.peak_time)
     , ("rise_time", .jnum f.rise_time)
     , ("decay_time", .jnum f.decay_time)
     , ("background", .jnum f.background)
     , ("confidence", .jnum f.confidence)
     , ("flare_type", .jstr f.flare_type) ]
     ++ (match f.is_nanoflare with
         | some b => [("is_nanoflare", JVal.jbool b)]
         | none => [])
     ++ (match f.nanoflare_confidence with
         | some q => [("nanoflare_confidence", JVal.jnum q)]
         | none => []))

/-- The random draws consumed by `_generate_mock_analysis`, named by the
loop index: `numFlares` models `np.random.randint(30, 80)` (so the
source keeps `30 ≤ numFlares < 80`), the per-event functions model the
distributions drawn inside the loop, `powerLawDraw1/2` the two separate
`np.random.uniform(-2.5, -1.5)` calls, and `nowIso` the
`datetime.now().isoformat()` string. -/
structure MockDraws where
  numFlares : ℕ
  energyDraw : ℕ → ℚ
  intensityExpDraw : ℕ → ℚ
  alphaDraw : ℕ → ℚ
  peakDraw : ℕ → ℚ
  riseDraw : ℕ → ℚ
  decayDraw : ℕ → ℚ
  backgroundDraw : ℕ → ℚ
  confidenceDraw : ℕ → ℚ
  typeDraw : ℕ → String
  powerLawDraw1 : ℚ
  powerLawDraw2 : ℚ
  nowIso : String

/-- The timestamp formula of the mock generator:
`f"2024-{1 + i//30:02d}-{1 + i%30:02d}T{i%24:02d}:{(i*15)%60:02d}:00Z"`. -/
def mock_timestamp (i : ℕ) : String :=
  "2024-" ++ pad2 (1 + i / 30) ++ "-" ++ pad2 (1 + i % 30) ++ "T" ++
    pad2 (i % 24) ++ ":" ++ pad2 ((i * 15) % 60) ++ ":00Z"

/-- The flare dict built in iteration `i` of the mock generator's loop
(`intensity = np.random.exponential(200) + 50`; no `is_nanoflare` key is
ever written). -/
def mock_flare (d : MockDraws) (i : ℕ) : FlareEvent :=
  { timestamp := mock_timestamp i
  , intensity := d.intensityExpDraw i + 50
  , energy := d.energyDraw i
  , alpha := d.alphaDraw i
  , peak_time := d.peakDraw i
  , rise_time := d.riseDraw i
  , decay_time := d.decayDraw i
  , background := d.backgroundDraw i
  , confidence := d.confidenceDraw i
  , flare_type := d.typeDraw i
  , is_nanoflare := none
  , nanoflare_confidence := none }

/-- The `flares` list of `_generate_mock_analysis`. -/
def mock_flares (d : MockDraws) : List FlareEvent :=
  (List.range d.numFlares).map (mock_flare d)

/-- The mock generator's nanoflare filter:
`[f for f in flares if abs(f['alpha']) > 2.0 or f['flare_type'] == 'nano']`. -/
def mock_nano_criterion (f : FlareEvent) : Bool :=
  decide (2 < |f.alpha|) || (f.flare_type == "nano")

/-- The `nanoflares` list of `_generate_mock_analysis`. -/
def mock_nanoflares (d : MockDraws) : List FlareEvent :=
  (mock_flares d).filter mock_nano_criterion

/-- `_generate_mock_analysis()`, serialised as the JSON object it
returns.  `pow10` models `10 ** x` and `npexp` models `np.exp` in the
hard-coded `energy_histogram` entries. -/
def generate_mock_analysis (pow10 npexp : ℚ → ℚ) (d : MockDraws) : JVal :=
  let flares := mock_flares d
  let nanoflares := mock_nanoflares d
  let energies := flares.map (fun f => f.energy)
  let nano_energies := nanoflares.map (fun f => f.energy)
  .jobj
    [ ("success", .jbool true)
    , ("separated_flares", .jarr (flares.map flare_json))
    , ("nanoflares", .jarr (nanoflares.map flare_json))
    , ("energy_analysis", .jobj
        [ ("total_energy", .jnum energies.sum)
        , ("average_energy", .jnum (energies.sum / energies.length))
        , ("median_energy", .jnum (np_median energies))
        , ("power_law_index", .jnum d.powerLawDraw1)
        , ("nanoflare_energy_fraction", .jnum
            (if nano_energies.isEmpty then 0 else nano_energies.sum / energies.sum)) ])
    , ("statistics", .jobj
        [ ("total_flares", .jnum flares.length)
        , ("nanoflare_count", .jnum nanoflares.length)
        , ("nanoflare_percentage", .jnum (nanoflares.length / (flares.length : ℚ) * 100))
        , ("average_energy", .jnum (energies.sum / energies.length))
        , ("power_law_index", .jnum d.powerLawDraw2) ])
    , ("visualizations", .jobj
        [ ("energy_histogram", .jarr ((List.range 10).map (fun i =>
            .jobj [ ("energy", .jnum (pow10 (27 + i * (3/10))))
                  , ("count", .jnum (max 0 (int_trunc (20 * npexp (-(i : ℚ) / 3))))) ])))
        , ("flare_timeline", .jarr
            (((sort_le (fun a b => decide (a.timestamp ≤ b.timestamp)) flares).take 20).map
              flare_json)) ])
    , ("metadata", .jobj
        [ ("file_processed", .jstr "mock_data.csv")
        , ("processing_time", .jstr d.nowIso)
        , ("data_points", .jnum 1000)
        , ("model_version", .jstr "2.0.0-mock") ]) ]

/-- A trivially constant random stream, usable wherever a concrete
instantiation of the draw parameters is needed. -/
def zfun : ℕ → ℕ → ℚ := fun _ _ => 0

/-- Decidable equality on `Except`, so concrete decoder outcomes can be
settled by `decide`. -/
instance exceptDecEq {e a : Type} [DecidableEq e] [DecidableEq a] :
    DecidableEq (Except e a)
  | .ok x, .ok y =>
      if h : x = y then .isTrue (by rw [h])
      else .isFalse (by intro hh; cases hh; exact h rfl)
  | .error x, .error y =>
      if h : x = y then .isTrue (by rw [h])
      else .isFalse (by intro hh; cases hh; exact h rfl)
  | .ok _, .error _ => .isFalse (by intro hh; cases hh)
  | .error _, .ok _ => .isFalse (by intro hh; cases hh)

/-- Two single-group windows whose amplitudes are `-2000` and `2000`:
equal intensity, opposite sign. -/
def c1_pred : RawPrediction :=
  { flare_params := [[-2000, 1/5, 1/10, 3/10, 10], [2000, 1/5, 1/10, 3/10, 10]]
  , energy_estimates := [1, 1]
  , classification := [1, 1] }

/-- Draws putting the mock generator's loop on an event with
`alpha = 0`, `intensity = 10 + 50 = 60` and `flare_type = 'micro'`. -/
def c4_draws : MockDraws :=
  { numFlares := 30
  , energyDraw := fun _ => 10 ^ 27
  , intensityExpDraw := fun _ => 10
  , alphaDraw := fun _ => 0
  , peakDraw := fun _ => 1/2
  , riseDraw := fun _ => 1/10
  , decayDraw := fun _ => 3/10
  , backgroundDraw := fun _ => 50
  , confidenceDraw := fun _ => 1/2
  , typeDraw := fun _ => "micro"
  , powerLawDraw1 := -2
  , powerLawDraw2 := -2
  , nowIso := "2024-01-01T00:00:00" }

/-- `c4_draws` with `alpha = 3`, selected by both predicates. -/
def c4_draws_b : MockDraws :=
  { c4_draws with alphaDraw := fun _ => 3 }

/-- A prediction whose single window block carries 6 scalars — one
complete group of 5 plus a remainder. -/
def c5_pred : RawPrediction :=
  { flare_params := [[1, 2, 3, 4, 5, 6]]
  , energy_estimates := [1]
  , classification := [1] }

/-- One window of two qualifying groups, with one aligned energy
estimate and one classification score. -/
def c10_pred : RawPrediction :=
  { flare_params := [[5, 1, 2, 3, 4, 7, 1, 2, 3, 4]]
  , energy_estimates := [42]
  , classification := [9/10] }

/-- The first event decoded from the window of `c10_pred`. -/
def c10_ev : FlareEvent := make_flare c10_pred zfun zfun 0 0 ⟨5, 1, 2, 3, 4⟩

/-- The second event decoded from the window of `c10_pred`. -/
def c10_ev2 : FlareEvent := make_flare c10_pred zfun zfun 0 1 ⟨7, 1, 2, 3, 4⟩

/-- Mock draws whose events all have `alpha = 3` and so are all selected
as nanoflares by the mock filter. -/
def c9_draws : MockDraws :=
  { numFlares := 30
  , energyDraw := fun _ => 10 ^ 27
  , intensityExpDraw := fun _ => 10
  , alphaDraw := fun _ => 3
  , peakDraw := fun _ => 1/2
  , riseDraw := fun _ => 1/10
  , decayDraw := fun _ => 3/10
  , backgroundDraw := fun _ => 50
  , confidenceDraw := fun _ => 1/2
  , typeDraw := fun _ => "micro"
  , powerLawDraw1 := -2
  , powerLawDraw2 := -2
  , nowIso := "2024-01-01T00:00:00" }

/-- A flare with a negative energy, as the claim's quantification over
arbitrary event lists allows. -/
def c6_event : FlareEvent :=
  { timestamp := "2024-01-01T00:00:00Z"
  , intensity := 5
  , energy := -1
  , alpha := 0
  , peak_time := 0
  , rise_time := 0
  , decay_time := 0
  , background := 0
  , confidence := 1/2
  , flare_type := "nano"
  , is_nanoflare := none
  , nanoflare_confidence := none }

/-- A flare with positive energy, for the success branch. -/
def c6_event_pos : FlareEvent :=
  { c6_event with energy := 4 }

/-- The log-energy sample produced inside `_analyze_energies`:
`np.log10(all_energies)` with `lg` standing for `log10`. -/
def log_energies_of (lg : ℚ → ℚ) (flares : List FlareEvent) : List ℚ :=
  (flares.map (fun f => f.energy)).map lg

/-- A minimal positive-energy flare record used to probe the Energy
Analyzer on chosen energies. -/
def simple_flare (e : ℚ) : FlareEvent :=
  { timestamp := "2024-01-01T00:00:00Z"
  , intensity := 5
  , energy := e
  , alpha := 0
  , peak_time := 0
  , rise_time := 0
  , decay_time := 0
  , background := 0
  , confidence := 1/2
  , flare_type := "nano"
  , is_nanoflare := none
  , nanoflare_confidence := none }

/-- Three flares whose (identity-log) energies land in three distinct
histogram bins. -/
def c8_flares : List FlareEvent := [simple_flare 1, simple_flare 11, simple_flare 21]

/-- The analysis record produced on `c8_flares`. -/
def c8_result : EnergyAnalysis :=
  match analyze_energies id c8_flares [] with
  | .ok a => a
  | _ => default

/-! ## Theorems -/

unseal Rat.mul Rat.inv Rat.add Rat.sub in
/-- **C1.** The decoder hands `_classify_flare_type` the signed
`flare_param[0]`, not the stored `intensity = abs(amplitude)`: the two
decoded events share intensity `2000` yet are typed `nano` and
`X-class`, while classifying the intensity `2000` itself yields
`X-class`.  This contradicts the claim (and the source function's own
`intensity` parameter), so the claim is reported as a code bug with this
theorem as the evaluation of the code at the failing input. -/
theorem C1_flare_type_from_signed_amplitude :
    (convert_predictions_to_flares c1_pred zfun zfun).map
        (fun l => l.map (fun f => (f.intensity, f.flare_type)))
      = .ok [(2000, "nano"), (2000, "X-class")] ∧
    classify_flare_type 2000 = "X-class" ∧
    classify_flare_type (-2000) = "nano" := by
  decide

unseal Rat.mul Rat.inv Rat.add Rat.sub in
/-- **C4 (counterexample).** A generated event with `alpha = 0`,
`intensity = 60`, `flare_type = 'micro'` satisfies the Classifier's
nanoflare predicate (`intensity < 100`) but not the mock generator's
filter, which omits the intensity criterion: the two selection functions
are not extensionally equal. -/
theorem C4_predicate_counterexample :
    nanoflare_criterion (mock_flare c4_draws 0) = true ∧
    mock_nano_criterion (mock_flare c4_draws 0) = false := by
  decide

/-- **C4 (amended).** The mock generator's nanoflare filter tests only
`abs(alpha) > 2.0 or flare_type == 'nano'`; every event it selects also
satisfies the Classifier's predicate (which additionally accepts
`intensity < 100`), but not conversely. -/
theorem C4_mock_filter_amended :
    ∀ f : FlareEvent, mock_nano_criterion f = true → nanoflare_criterion f = true := by
  intro f h
  simp only [mock_nano_criterion, Bool.or_eq_true] at h
  simp only [nanoflare_criterion, Bool.or_eq_true]
  tauto

unseal Rat.mul Rat.inv Rat.add Rat.sub in
/-- Witness for `C4_mock_filter_amended` at a concrete generated event. -/
theorem C4_mock_filter_amended_witness :
    mock_nano_criterion (mock_flare c4_draws_b 0) = true ∧
    nanoflare_criterion (mock_flare c4_draws_b 0) = true :=
  ⟨by decide, C4_mock_filter_amended (mock_flare c4_draws_b 0) (by decide)⟩

/-- **C5 (counterexample).** On a 6-scalar block the decoder does not
truncate silently: `params.reshape(-1, 5)` raises, so decoding returns
an error instead of processing the leading complete group. -/
theorem C5_truncation_counterexample :
    convert_predictions_to_flares c5_pred zfun zfun
      = .error "cannot reshape array into shape (5)" := by
  exact rfl

/-- Blocks with fewer than 5 scalars are skipped without error. -/
theorem convert_window_params_short (pred : RawPrediction)
    (aD eD : ℕ → ℕ → ℚ) (i : ℕ) (params : List ℚ)
    (h : params.length < 5) :
    convert_window_params pred aD eD i params = .ok [] := by
  unfold convert_window_params
  rw [if_neg (by omega)]

/-- Blocks with at least 5 scalars but a length not divisible by 5 make
the reshape raise. -/
theorem convert_window_params_bad (pred : RawPrediction)
    (aD eD : ℕ → ℕ → ℚ) (i : ℕ) (params : List ℚ)
    (h5 : 5 ≤ params.length) (hm : params.length % 5 ≠ 0) :
    convert_window_params pred aD eD i params
      = .error "cannot reshape array into shape (5)" := by
  unfold convert_window_params
  rw [if_pos h5, if_neg hm]

/-- A block that is not ill-shaped decodes without raising. -/
theorem convert_window_params_isOk (pred : RawPrediction)
    (aD eD : ℕ → ℕ → ℚ) (i : ℕ) (params : List ℚ)
    (h : ¬(5 ≤ params.length ∧ params.length % 5 ≠ 0)) :
    ∃ evs, convert_window_params pred aD eD i params = .ok evs := by
  unfold convert_window_params
  by_cases h5 : 5 ≤ params.length
  · have hm : params.length % 5 = 0 := by tauto
    rw [if_pos h5, if_pos hm]
    exact ⟨_, rfl⟩
  · rw [if_neg h5]
    exact ⟨[], rfl⟩

/-- A single ill-shaped block anywhere in the window list aborts the
whole decode with an error. -/
theorem convert_go_error_of_bad (pred : RawPrediction)
    (aD eD : ℕ → ℕ → ℚ) :
    ∀ (l : List (List ℚ)) (i : ℕ),
      (∃ b ∈ l, 5 ≤ b.length ∧ b.length % 5 ≠ 0) →
      ∃ m, convert_go pred aD eD i l = .error m := by
  intro l
  induction l with
  | nil => simp
  | cons b rest ih =>
    intro i hex
    by_cases hb : 5 ≤ b.length ∧ b.length % 5 ≠ 0
    · refine ⟨"cannot reshape array into shape (5)", ?_⟩
      show convert_go pred aD eD i (b :: rest) = _
      unfold convert_go
      rw [convert_window_params_bad pred aD eD i b hb.1 hb.2]
    · obtain ⟨bad, hbadmem, hbad⟩ := hex
      have hbadrest : bad ∈ rest := by
        rcases List.mem_cons.mp hbadmem with h | h
        · exact absurd (h ▸ hbad) hb
        · exact h
      obtain ⟨evs, hevs⟩ := convert_window_params_isOk pred aD eD i b hb
      obtain ⟨m, hm⟩ := ih (i + 1) ⟨bad, hbadrest, hbad⟩
      refine ⟨m, ?_⟩
      show convert_go pred aD eD i (b :: rest) = _
      unfold convert_go
      rw [hevs, hm]

/-- **C5 (amended).** A per-window block whose scalar count is not a
multiple of 5 is not truncated: a block with fewer than 5 scalars is
skipped silently, while a block of 5 or more scalars whose count is not
a multiple of 5 makes `reshape(-1, 5)` raise, so the whole decode
returns an error (the orchestrator then falls back to mock data). -/
theorem C5_reshape_amended :
    (∀ (pred : RawPrediction) (aD eD : ℕ → ℕ → ℚ) (i : ℕ) (params : List ℚ),
        params.length < 5 → convert_window_params pred aD eD i params = .ok []) ∧
    (∀ (pred : RawPrediction) (aD eD : ℕ → ℕ → ℚ),
        (∃ b ∈ pred.flare_params, 5 ≤ b.length ∧ b.length % 5 ≠ 0) →
        ∃ m, convert_predictions_to_flares pred aD eD = .error m) :=
  ⟨convert_window_params_short,
   fun pred aD eD hex => convert_go_error_of_bad pred aD eD pred.flare_params 0 hex⟩

/-- Witness for `C5_reshape_amended` at a 3-scalar block and at the
6-scalar block of `c5_pred`. -/
theorem C5_reshape_amended_witness :
    (([(3 : ℚ), 4, 5].length < 5) ∧
      convert_window_params c5_pred zfun zfun 0 [3, 4, 5] = .ok []) ∧
    ∃ m, convert_predictions_to_flares c5_pred zfun zfun = .error m :=
  ⟨⟨by decide, C5_reshape_amended.1 c5_pred zfun zfun 0 [3, 4, 5] (by decide)⟩,
   C5_reshape_amended.2 c5_pred zfun zfun ⟨[1, 2, 3, 4, 5, 6], by decide, by decide, by decide⟩⟩

/-- **C10.** Within one window `i`, energy and confidence are indexed
per window, not per parameter group: when `i` is in range for both
aligned arrays every decoded event of the window carries
`energy_estimates[i]` and `classification[i]` (hence all events of the
window share them), and when `i` is out of range each event gets its own
fallback draw. -/
theorem C10_per_window_energy_confidence :
    ∀ (pred : RawPrediction) (aD eD : ℕ → ℕ → ℚ) (i : ℕ) (params : List ℚ)
      (evs : List FlareEvent),
      convert_window_params pred aD eD i params = .ok evs →
      (i < pred.energy_estimates.length → i < pred.classification.length →
          ∀ f ∈ evs, f.energy = pred.energy_estimates.getD i 0 ∧
                     f.confidence = pred.classification.getD i 0) ∧
      (pred.energy_estimates.length ≤ i →
          ∀ f ∈ evs, ∃ j, f.energy = eD i j) := by
  intro pred aD eD i params evs hok
  have hmem : ∀ f ∈ evs, ∃ j g, f = make_flare pred aD eD i j g := by
    intro f hf
    unfold convert_window_params at hok
    by_cases h5 : 5 ≤ params.length
    · rw [if_pos h5] at hok
      by_cases hdiv : params.length % 5 = 0
      · rw [if_pos hdiv] at hok
        cases hok
        rcases List.mem_filterMap.mp hf with ⟨p, hp, hsome⟩
        by_cases hc : 1/10 < |p.2.amplitude|
        · rw [if_pos hc] at hsome
          exact ⟨p.1, p.2, (Option.some.inj hsome).symm⟩
        · rw [if_neg hc] at hsome
          cases hsome
      · rw [if_neg hdiv] at hok
        cases hok
    · rw [if_neg h5] at hok
      cases hok
      cases hf
  constructor
  · intro hE hC f hf
    rcases hmem f hf with ⟨j, g, rfl⟩
    constructor
    · simp only [make_flare]
      rw [if_pos hE]
    · simp only [make_flare]
      rw [if_pos hC]
  · intro hE f hf
    rcases hmem f hf with ⟨j, g, rfl⟩
    refine ⟨j, ?_⟩
    simp only [make_flare]
    rw [if_neg (by omega)]

unseal Rat.mul Rat.inv Rat.add Rat.sub in
/-- Witness for `C10_per_window_energy_confidence` on the concrete
two-group window of `c10_pred`. -/
theorem C10_per_window_witness :
    c10_ev.energy = c10_pred.energy_estimates.getD 0 0 ∧
    c10_ev.confidence = c10_pred.classification.getD 0 0 :=
  (C10_per_window_energy_confidence c10_pred zfun zfun 0
      [5, 1, 2, 3, 4, 7, 1, 2, 3, 4] [c10_ev, c10_ev2] (by decide)).1
    (by decide) (by decide) c10_ev (by decide)

/-- **C9 (amended).** On the real path, every flare in the list returned
by `_detect_nanoflares` is one of the (in-place mutated) events of
`ml_results` and carries `is_nanoflare = True`.  On the fallback path
the mock `nanoflares` list is likewise a sublist of `separated_flares`,
but mock events never receive an `is_nanoflare` key at all. -/
theorem C9_nanoflare_subset_amended :
    (∀ (l : List FlareEvent), ∀ f ∈ detect_nanoflares l,
        f ∈ detect_nanoflares_all l ∧ f.is_nanoflare = some true) ∧
    (∀ (d : MockDraws), ∀ f ∈ mock_nanoflares d,
        f ∈ mock_flares d ∧ f.is_nanoflare = none) := by
  constructor
  · intro l f hf
    unfold detect_nanoflares at hf
    have h1 := List.mem_filter.mp hf
    refine ⟨h1.1, ?_⟩
    rcases List.mem_map.mp h1.1 with ⟨x, hx, hfx⟩
    by_cases hc : nanoflare_criterion x
    · rw [if_pos hc] at hfx
      rw [← hfx]
      rfl
    · rw [if_neg hc] at hfx
      rw [← hfx] at h1
      exact absurd h1.2 (by simp [hc])
  · intro d f hf
    unfold mock_nanoflares at hf
    have h1 := List.mem_filter.mp hf
    refine ⟨h1.1, ?_⟩
    rcases List.mem_map.mp h1.1 with ⟨i, hi, hfi⟩
    rw [← hfi]
    rfl

unseal Rat.mul Rat.inv Rat.add Rat.sub in
/-- **C9 (counterexample).** A mock-generated nanoflare does not have
`is_nanoflare == true`: the key is never written on the fallback path. -/
theorem C9_mock_flag_counterexample :
    mock_flare c9_draws 0 ∈ mock_nanoflares c9_draws ∧
    (mock_flare c9_draws 0).is_nanoflare ≠ some true := by
  decide

unseal Rat.mul Rat.inv Rat.add Rat.sub in
/-- Witness for `C9_nanoflare_subset_amended` on a concrete singleton
real-path list and the concrete mock population of `c9_draws`. -/
theorem C9_nanoflare_subset_amended_witness :
    (mark_nanoflare (mock_flare c9_draws 0) ∈
        detect_nanoflares_all [mock_flare c9_draws 0] ∧
      (mark_nanoflare (mock_flare c9_draws 0)).is_nanoflare = some true) ∧
    (mock_flare c9_draws 0 ∈ mock_flares c9_draws ∧
      (mock_flare c9_draws 0).is_nanoflare = none) :=
  ⟨C9_nanoflare_subset_amended.1 [mock_flare c9_draws 0]
      (mark_nanoflare (mock_flare c9_draws 0)) (by decide),
   C9_nanoflare_subset_amended.2 c9_draws (mock_flare c9_draws 0) (by decide)⟩

/-- **C6 (amended).** `_analyze_energies` returns the inline error
object exactly when the event list is empty; a non-empty list containing
any non-positive energy makes it raise (the log/histogram step), which
propagates instead of producing the error object; a non-empty list whose
energies are all positive yields the full analysis record. -/
theorem C6_energy_error_amended :
    ∀ (lg : ℚ → ℚ) (flares nanos : List FlareEvent),
      (analyze_energies lg flares nanos = .errObj ↔ flares = []) ∧
      ((∃ f ∈ flares, f.energy ≤ 0) →
        ∃ m, analyze_energies lg flares nanos = .raised m) ∧
      (flares ≠ [] → (∀ f ∈ flares, 0 < f.energy) →
        ∃ a, analyze_energies lg flares nanos = .ok a) := by
  intro lg flares nanos
  cases flares with
  | nil =>
    refine ⟨by simp [analyze_energies], ?_, ?_⟩
    · rintro ⟨f, hf, _⟩
      cases hf
    · intro h
      exact absurd rfl h
  | cons a t =>
    by_cases hAny : ((a :: t).map (fun f => f.energy)).any (fun e => decide (e ≤ 0))
    · have hres : analyze_energies lg (a :: t) nanos
          = .raised "histogram range is not finite" := by
        simp only [analyze_energies]
        rw [if_neg (by simp), if_pos hAny]
      refine ⟨?_, ?_, ?_⟩
      · rw [hres]
        simp
      · intro _
        exact ⟨_, hres⟩
      · intro _ hpos
        rcases List.any_eq_true.mp hAny with ⟨e, he, hle⟩
        rcases List.mem_map.mp he with ⟨f, hfmem, rfl⟩
        exact absurd (hpos f hfmem) (by simpa using hle)
    · have hres : ∃ r, analyze_energies lg (a :: t) nanos = .ok r := by
        simp only [analyze_energies]
        rw [if_neg (by simp), if_neg hAny]
        exact ⟨_, rfl⟩
      obtain ⟨r, hr⟩ := hres
      refine ⟨?_, ?_, ?_⟩
      · rw [hr]
        simp
      · rintro ⟨f, hfmem, hle⟩
        refine absurd (List.any_eq_true.mpr ⟨f.energy, List.mem_map.mpr ⟨f, hfmem, rfl⟩, by simpa using hle⟩) hAny
      · intro _ _
        exact ⟨r, hr⟩

unseal Rat.mul Rat.inv Rat.add Rat.sub in
/-- **C6 (counterexample).** A non-empty list with no positive energy
does not produce the error object, contrary to the claim: the analyzer
raises instead. -/
theorem C6_error_counterexample :
    c6_event.energy ≤ 0 ∧
    analyze_energies id [c6_event] [] ≠ EnergyResult.errObj ∧
    analyze_energies id [c6_event] []
      = EnergyResult.raised "histogram range is not finite" := by
  decide

unseal Rat.mul Rat.inv Rat.add Rat.sub in
/-- Witness for `C6_energy_error_amended`: the raised branch at the
non-positive-energy singleton and the success branch at the
positive-energy singleton. -/
theorem C6_energy_error_amended_witness :
    (∃ m, analyze_energies id [c6_event] [] = .raised m) ∧
    (∃ a, analyze_energies id [c6_event_pos] [] = .ok a) :=
  ⟨(C6_energy_error_amended id [c6_event] []).2.1 ⟨c6_event, by decide, by decide⟩,
   (C6_energy_error_amended id [c6_event_pos] []).2.2 (by decide)
     (fun f hf => by
        rcases List.mem_singleton.mp hf with rfl
        decide)⟩

/-- **C3 (amended).** For every draw, the fallback payload has top-level
keys `success, separated_flares, nanoflares, energy_analysis,
statistics, visualizations, metadata`, but its `energy_analysis` carries
only `total_energy, average_energy, median_energy, power_law_index,
nanoflare_energy_fraction` — no `energy_range` and no
`energy_distribution` — and its `visualizations` carries only
`energy_histogram` and `flare_timeline` — no `time_series` and no
`power_law_plot` — so it is not schema-identical to the real path's
output. -/
theorem C3_fallback_schema_amended :
    ∀ (pow10 npexp : ℚ → ℚ) (d : MockDraws),
      jkeys (generate_mock_analysis pow10 npexp d)
        = ["success", "separated_flares", "nanoflares", "energy_analysis",
           "statistics", "visualizations", "metadata"] ∧
      jkeys_at (generate_mock_analysis pow10 npexp d) "energy_analysis"
        = ["total_energy", "average_energy", "median_energy",
           "power_law_index", "nanoflare_energy_fraction"] ∧
      jkeys_at (generate_mock_analysis pow10 npexp d) "visualizations"
        = ["energy_histogram", "flare_timeline"] ∧
      jkeys_at (generate_mock_analysis pow10 npexp d) "metadata"
        = ["file_processed", "processing_time", "data_points", "model_version"] := by
  intro pow10 npexp d
  exact ⟨rfl, rfl, rfl, rfl⟩

unseal Rat.mul Rat.inv Rat.add Rat.sub in
/-- **C3 (counterexample).** At concrete draws, the fallback payload's
`energy_analysis` lacks the claimed `energy_range` and
`energy_distribution` keys and its `visualizations` lacks the claimed
`time_series` and `power_law_plot` keys. -/
theorem C3_schema_counterexample :
    "energy_range" ∉ jkeys_at (generate_mock_analysis id id c9_draws) "energy_analysis" ∧
    "energy_distribution" ∉ jkeys_at (generate_mock_analysis id id c9_draws) "energy_analysis" ∧
    "time_series" ∉ jkeys_at (generate_mock_analysis id id c9_draws) "visualizations" ∧
    "power_law_plot" ∉ jkeys_at (generate_mock_analysis id id c9_draws) "visualizations" := by
  decide

/-- With a non-zero step, `python_range_zero` never raises. -/
theorem python_range_zero_ok (stop : ℤ) (step : ℕ) (hstep : step ≠ 0) :
    python_range_zero stop step
      = .ok (if stop ≤ 0 then []
             else (List.range ((stop.toNat + step - 1) / step)).map (fun k => k * step)) := by
  unfold python_range_zero
  rw [if_neg hstep]
  by_cases h : stop ≤ 0
  · rw [if_pos h, if_pos h]
  · rw [if_neg h, if_neg h]

unseal Rat.mul Rat.inv Rat.add Rat.sub in
/-- **C7 (counterexample).** With `sequence_length = 1` the stride is
`1 // 2 = 0` — the source has no `max(1, ·)` guard — so the `range`
call raises and the Windower returns no window at all. -/
theorem C7_stride_counterexample :
    segment_sequences [[0]] 1 1 = .error "range() arg 3 must not be zero" := by
  decide

/-- **C7 (amended).** For `sequence_length ≥ 2` the stride
`sequence_length // 2` is at least 1, and the Windower never errors and
returns at least one window (one zero-padded window when the series is
shorter than `sequence_length`); for `sequence_length = 1` the stride is
0 and `range` raises. -/
theorem C7_windower_total_amended :
    ∀ (data : List (List ℚ)) (sequence_length n_features : ℕ),
      2 ≤ sequence_length →
      ∃ ws, segment_sequences data sequence_length n_features = .ok ws ∧
        0 < ws.length := by
  intro data L n h2
  have hs : L / 2 ≠ 0 := by omega
  have hs1 : 0 < L / 2 := Nat.pos_of_ne_zero hs
  simp only [segment_sequences, segment_offsets]
  rw [python_range_zero_ok _ _ hs]
  by_cases hstop : ((adjust_features data n).length : ℤ) - L + 1 ≤ 0
  · rw [if_pos hstop]
    simp only [Except.map, List.map_nil, List.isEmpty_nil, if_true]
    exact ⟨_, rfl, by simp⟩
  · rw [if_neg hstop]
    have htn : 1 ≤ (((adjust_features data n).length : ℤ) - L + 1).toNat := by omega
    have hcount :
        0 < ((((adjust_features data n).length : ℤ) - L + 1).toNat + L / 2 - 1) / (L / 2) := by
      refine (Nat.le_div_iff_mul_le hs1).mpr ?_
      omega
    simp only [Except.map]
    rw [if_neg (by
      simp only [List.isEmpty_iff, List.map_eq_nil_iff, List.range_eq_nil]
      omega)]
    refine ⟨_, rfl, ?_⟩
    simpa using hcount

unseal Rat.mul Rat.inv Rat.add Rat.sub in
/-- Witness for `C7_windower_total_amended` at a one-row series with
`sequence_length = 2`. -/
theorem C7_windower_total_amended_witness :
    ∃ ws, segment_sequences [[0]] 2 1 = .ok ws ∧ 0 < ws.length :=
  C7_windower_total_amended [[0]] 2 1 (by decide)

/-- **C2 (counterexample).** For a series of length 7 with
`sequence_length = 4` (stride 2), the offsets are exactly 0 and 2, both
windows end at or before index 6, and so index `6 < 7` is covered by no
window: the windows do not cover `[0, L)`. -/
theorem C2_coverage_counterexample :
    segment_offsets 7 4 = .ok [0, 2] ∧
    (6 : ℕ) < 7 ∧ 0 + 4 ≤ 6 ∧ 2 + 4 ≤ 6 := by
  decide

/-- **C2 (amended).** For `L ≥ sequence_length ≥ 2` and stride
`s = sequence_length // 2`, the Windower produces exactly the windows at
offsets `0, s, 2s, …` whose end stays within `L`; every window end is at
most `L`; the windows cover `[0, L - (L - sequence_length) % s)` — so
they leave up to `s - 1` trailing samples uncovered, and cover all of
`[0, L)` exactly when `s` divides `L - sequence_length`. -/
theorem C2_windowing_amended :
    ∀ (L seqLen : ℕ), 2 ≤ seqLen → seqLen ≤ L →
      ∃ offs, segment_offsets L seqLen = .ok offs ∧
        (∀ o ∈ offs, ∃ k, o = k * (seqLen / 2) ∧ o + seqLen ≤ L) ∧
        (∀ k : ℕ, k * (seqLen / 2) + seqLen ≤ L → k * (seqLen / 2) ∈ offs) ∧
        (∀ idx : ℕ, idx < L - (L - seqLen) % (seqLen / 2) →
          ∃ o ∈ offs, o ≤ idx ∧ idx < o + seqLen) ∧
        ((seqLen / 2) ∣ (L - seqLen) →
          ∀ idx : ℕ, idx < L → ∃ o ∈ offs, o ≤ idx ∧ idx < o + seqLen) := by
  intro L seqLen h2 hLs
  have hs1 : 0 < seqLen / 2 := by omega
  have hsle : seqLen / 2 ≤ seqLen := Nat.div_le_self _ _
  set s := seqLen / 2 with hs_def
  set D := L - seqLen with hD_def
  have hoffs : segment_offsets L seqLen
      = .ok ((List.range (D / s + 1)).map (fun k => k * s)) := by
    unfold segment_offsets
    rw [python_range_zero_ok _ _ (by omega)]
    rw [if_neg (by omega)]
    have h1 : ((L : ℤ) - seqLen + 1).toNat = D + 1 := by omega
    have h2c : D + 1 + s - 1 = D + s := by omega
    rw [h1, h2c, Nat.add_div_right _ hs1]
  have hmem : ∀ o, o ∈ (List.range (D / s + 1)).map (fun k => k * s)
      ↔ ∃ k, k ≤ D / s ∧ k * s = o := by
    intro o
    simp [List.mem_map, List.mem_range, Nat.lt_succ_iff]
  have hcov : ∀ idx : ℕ, idx < L - D % s →
      ∃ o ∈ (List.range (D / s + 1)).map (fun k => k * s),
        o ≤ idx ∧ idx < o + seqLen := by
    intro idx hidx
    have ha : idx / s * s + idx % s = idx := Nat.div_add_mod' idx s
    have hb : D / s * s + D % s = D := Nat.div_add_mod' D s
    have hmod : idx % s < s := Nat.mod_lt _ hs1
    by_cases hq : idx / s ≤ D / s
    · refine ⟨idx / s * s, (hmem _).mpr ⟨idx / s, hq, rfl⟩, ?_, ?_⟩
      · omega
      · omega
    · push_neg at hq
      have hq1 : D / s + 1 ≤ idx / s := hq
      have hmul : (D / s + 1) * s ≤ idx / s * s := Nat.mul_le_mul_right s hq1
      have hexp : (D / s + 1) * s = D / s * s + s := by ring
      refine ⟨D / s * s, (hmem _).mpr ⟨D / s, le_refl _, rfl⟩, ?_, ?_⟩
      · omega
      · omega
  refine ⟨_, hoffs, ?_, ?_, hcov, ?_⟩
  · intro o ho
    rcases (hmem o).mp ho with ⟨k, hk, rfl⟩
    have : k * s ≤ D := (Nat.le_div_iff_mul_le hs1).mp hk
    exact ⟨k, rfl, by omega⟩
  · intro k hk
    have hkD : k * s ≤ D := by omega
    have : k ≤ D / s := (Nat.le_div_iff_mul_le hs1).mpr hkD
    exact (hmem _).mpr ⟨k, this, rfl⟩
  · intro hdvd idx hidx
    have hz : D % s = 0 := Nat.mod_eq_zero_of_dvd hdvd
    exact hcov idx (by omega)

/-- Witness for `C2_windowing_amended` at `L = 7`,
`sequence_length = 4`. -/
theorem C2_windowing_amended_witness :
    ∃ offs, segment_offsets 7 4 = .ok offs ∧
      (∀ o ∈ offs, ∃ k, o = k * (4 / 2) ∧ o + 4 ≤ 7) ∧
      (∀ k : ℕ, k * (4 / 2) + 4 ≤ 7 → k * (4 / 2) ∈ offs) ∧
      (∀ idx : ℕ, idx < 7 - (7 - 4) % (4 / 2) →
        ∃ o ∈ offs, o ≤ idx ∧ idx < o + 4) ∧
      ((4 / 2) ∣ (7 - 4) →
        ∀ idx : ℕ, idx < 7 → ∃ o ∈ offs, o ≤ idx ∧ idx < o + 4) :=
  C2_windowing_amended 7 4 (by decide) (by decide)

/-- **C8.** On every successful analysis, `power_law_index` is the
`np.polyfit` degree-one (ordinary least-squares) slope of
`log10(count)` against the bin centers of the 20-bin log-energy
histogram, restricted to the non-empty bins, whenever more than 2 such
bins exist; with at most 2 non-empty bins it is exactly `-2`. -/
theorem C8_power_law_fit :
    ∀ (lg : ℚ → ℚ) (flares nanos : List FlareEvent) (a : EnergyAnalysis),
      analyze_energies lg flares nanos = .ok a →
      a.power_law_index = power_law_fit lg (log_energies_of lg flares) ∧
      (∀ lo hi : ℚ, lo = (hist_range (log_energies_of lg flares)).1 →
        hi = (hist_range (log_energies_of lg flares)).2 →
        (2 < (valid_bins lo hi (log_energies_of lg flares)).length →
          a.power_law_index = np_polyfit_slope
            ((valid_bins lo hi (log_energies_of lg flares)).map
              (fun k => (hist_edge lo hi k + hist_edge lo hi (k + 1)) / 2))
            ((valid_bins lo hi (log_energies_of lg flares)).map
              (fun k => lg (hist_count lo hi (log_energies_of lg flares) k : ℚ)))) ∧
        ((valid_bins lo hi (log_energies_of lg flares)).length ≤ 2 →
          a.power_law_index = -2)) := by
  intro lg flares nanos a hok
  have hplaw : a.power_law_index = power_law_fit lg (log_energies_of lg flares) := by
    cases flares with
    | nil => simp [analyze_energies] at hok
    | cons x t =>
      by_cases hAny : ((x :: t).map (fun f => f.energy)).any (fun e => decide (e ≤ 0))
      · rw [show analyze_energies lg (x :: t) nanos
            = .raised "histogram range is not finite" from by
          simp only [analyze_energies]
          rw [if_neg (by simp), if_pos hAny]] at hok
        cases hok
      · simp only [analyze_energies] at hok
        rw [if_neg (by simp), if_neg hAny] at hok
        rw [← EnergyResult.ok.inj hok]
        rfl
  refine ⟨hplaw, ?_⟩
  intro lo hi hlo hhi
  subst hlo
  subst hhi
  constructor
  · intro hgt
    rw [hplaw]
    simp only [power_law_fit]
    rw [if_pos hgt]
  · intro hle
    rw [hplaw]
    simp only [power_law_fit]
    rw [if_neg (by omega)]

unseal Rat.mul Rat.inv Rat.add Rat.sub in
/-- Witness for `C8_power_law_fit` on `c8_flares`: three bins are
populated and the reported index is the least-squares slope. -/
theorem C8_power_law_fit_witness :
    2 < (valid_bins (hist_range (log_energies_of id c8_flares)).1
          (hist_range (log_energies_of id c8_flares)).2
          (log_energies_of id c8_flares)).length ∧
    c8_result.power_law_index = np_polyfit_slope
      ((valid_bins (hist_range (log_energies_of id c8_flares)).1
          (hist_range (log_energies_of id c8_flares)).2
          (log_energies_of id c8_flares)).map
        (fun k => (hist_edge (hist_range (log_energies_of id c8_flares)).1
                     (hist_range (log_energies_of id c8_flares)).2 k
                   + hist_edge (hist_range (log_energies_of id c8_flares)).1
                       (hist_range (log_energies_of id c8_flares)).2 (k + 1)) / 2))
      ((valid_bins (hist_range (log_energies_of id c8_flares)).1
          (hist_range (log_energies_of id c8_flares)).2
          (log_energies_of id c8_flares)).map
        (fun k => id (hist_count (hist_range (log_energies_of id c8_flares)).1
                        (hist_range (log_energies_of id c8_flares)).2
                        (log_energies_of id c8_flares) k : ℚ))) :=
  ⟨by decide,
   ((C8_power_law_fit id c8_flares [] c8_result (by decide)).2 _ _ rfl rfl).1 (by decide)⟩
